import Mathlib

/-!
Shallow embedding of `src/backpack_exchange_sdk/websocket.py`
(class `WebSocketClient` of the backpack_exchange_sdk repository).

Modelling decisions, all traceable to the source:

* Python `dict` preserves insertion order and has unique keys; the
  `self.callbacks` dictionary is embedded as an association list
  `List (String × List Nat)` with unique keys maintained by the
  operations themselves, exactly as the source maintains them.
* Handlers (Python callables) are identified by `Nat` ids; their
  behaviour on a payload is a parameter `raises : Nat → Json → Bool`
  telling whether invoking handler `h` on payload `d` raises an
  exception (the only behaviour of a handler the source can observe,
  since return values are discarded).
* `json.loads` either yields a decoded value or raises
  `json.JSONDecodeError`; an inbound frame is therefore embedded as
  `Option Json`, `none` standing for undecodable text.
* Exceptions are explicit: functions that can raise return the raised
  error alongside the observable effects they performed before raising.
* `ws.send` is embedded by returning the message that would be sent
  (`OutMsg`); a function that raises before reaching `ws.send` returns
  an error instead of a message.
-/

namespace BackpackWS

/-- JSON values as produced by Python's `json.loads`. -/
inductive Json where
  | null
  | bool (b : Bool)
  | num (n : Int)
  | str (s : String)
  | arr (elems : List Json)
  | obj (fields : List (String × Json))

/-- Python exceptions that the embedded code can raise. -/
inductive PyError where
  | keyError (key : String)
  | jsonDecodeError
  | attributeError
  | typeError
  | handlerError (h : Nat)
deriving Repr, DecidableEq

/-- First binding of `key` in an association list (Python `dict` lookup /
`dict.get`; keys are unique in every list the operations build). -/
def alistGet {α : Type} : List (String × α) → String → Option α
  | [], _ => none
  | (k, v) :: rest, key => if k = key then some v else alistGet rest key

/-- Python truthiness of a decoded JSON value (`if stream ...`). -/
def pyTruthy : Json → Bool
  | .null => false
  | .bool b => b
  | .num n => n ≠ 0
  | .str s => !s.isEmpty
  | .arr xs => !xs.isEmpty
  | .obj fs => !fs.isEmpty

/-- Python truthiness of an optional string: `None` and `""` are falsy
(`not self.api_key`). -/
def optStrFalsy : Option String → Bool
  | none => true
  | some s => s.isEmpty

/-- The `self.callbacks` dictionary: stream name to list of handler ids. -/
abbrev Registry := List (String × List Nat)

/-- `self.callbacks[stream].append(callback)`: append `cb` to the list at
the (unique) entry for `stream`; no entry, no change. -/
def appendHandler : Registry → String → Nat → Registry
  | [], _, _ => []
  | (k, hs) :: rest, key, cb =>
    if k = key then (k, hs ++ [cb]) :: rest
    else (k, hs) :: appendHandler rest key cb

/-- One iteration of the registration loop in `subscribe`:
`if stream not in self.callbacks: self.callbacks[stream] = []` (a fresh
entry goes to the end, Python dicts being insertion-ordered), then
`self.callbacks[stream].append(callback)`. -/
def registerStream (cbs : Registry) (stream : String) (cb : Nat) : Registry :=
  let cbs' :=
    match alistGet cbs stream with
    | none => cbs ++ [(stream, [])]
    | some _ => cbs
  appendHandler cbs' stream cb

/-- The whole registration loop of `subscribe`:
`for stream in streams: ...`. -/
def registerStreams (cbs : Registry) (streams : List String) (cb : Nat) :
    Registry :=
  streams.foldl (fun acc s => registerStream acc s cb) cbs

/-- `del self.callbacks[stream]`: drop the binding of `stream` (a dict
holds at most one binding per key; dropping every one coincides with that
on every state the operations build). -/
def eraseKey : Registry → String → Registry
  | [], _ => []
  | (k, hs) :: rest, key =>
    if k = key then eraseKey rest key else (k, hs) :: eraseKey rest key

/-- One iteration of the removal loop in `unsubscribe`:
`if stream in self.callbacks: del self.callbacks[stream]`. -/
def delStream (cbs : Registry) (stream : String) : Registry :=
  match alistGet cbs stream with
  | none => cbs
  | some _ => eraseKey cbs stream

/-- The whole removal loop of `unsubscribe`. -/
def delStreams (cbs : Registry) (streams : List String) : Registry :=
  streams.foldl delStream cbs

/-- Modelled from the spec: `_sign_message`, called by `_generate_signature`,
is absent from src; the spec declares it a supplied cryptographic signing
primitive `sign(message, secretKey) -> signature`. It is modelled as an
arbitrary function from the message string to a signature string (the
secret key is fixed per client, so it is folded into the function). -/
def SignPrimitive : Type := String → String

/-- The dictionary `_generate_signature` returns when credentials are
configured (keys `api-key`, `signature`, `timestamp`, `window`). -/
structure AuthData where
  apiKey : String
  sigValue : String
  timestamp : String
  window : String
deriving Repr, DecidableEq

/-- `_generate_signature(self, streams, timestamp, window=5000)`:
returns `{}` (here `none`) when `not self.api_key or not self.secret_key`;
otherwise signs the canonical string
`f"instruction=subscribe&timestamp={timestamp}&window={window}"` and
returns the four string fields.  `streams` is taken and ignored, exactly
as in the source. -/
def generate_signature (api_key secret_key : Option String)
    (sign : SignPrimitive) (streams : List String) (timestamp : Nat)
    (window : Nat) : Option AuthData :=
  if optStrFalsy api_key || optStrFalsy secret_key then
    none
  else
    let sign_str := "instruction=subscribe&timestamp=" ++ toString timestamp
      ++ "&window=" ++ toString window
    some { apiKey := api_key.getD ""
           sigValue := sign sign_str
           timestamp := toString timestamp
           window := toString window }

/-- A JSON text frame passed to `ws.send`: method, params, and the
optional `"signature"` list of four strings. -/
structure OutMsg where
  method : String
  params : List String
  sigField : Option (List String)
deriving Repr, DecidableEq

/-- The mutable per-client state relevant to `subscribe`/`unsubscribe`:
credentials fixed at construction and the `self.callbacks` dictionary
(`{}` after `__init__`). -/
structure ClientState where
  api_key : Option String
  secret_key : Option String
  callbacks : Registry
deriving Repr, DecidableEq

/-- `subscribe(self, streams, callback, is_private=False)`.
First the registration loop mutates `self.callbacks`; then the message is
built; for `is_private`, `auth_data = self._generate_signature(streams,
timestamp)` (window defaulting to 5000) and the four lookups
`auth_data["api-key"]` … raise `KeyError` on the empty dict, so the final
`self.ws.send(json.dumps(subscribe_data))` is never reached.  Returns the
state after the mutation together with either the sent message or the
raised error. -/
def subscribe (st : ClientState) (sign : SignPrimitive)
    (streams : List String) (callback : Nat) (is_private : Bool)
    (timestamp : Nat) : ClientState × Except PyError OutMsg :=
  let st' := { st with callbacks := registerStreams st.callbacks streams callback }
  let subscribe_data : OutMsg := { method := "SUBSCRIBE", params := streams, sigField := none }
  if is_private then
    match generate_signature st.api_key st.secret_key sign streams timestamp 5000 with
    | none => (st', .error (.keyError "api-key"))
    | some auth =>
        (st', .ok { subscribe_data with
                    sigField := some [auth.apiKey, auth.sigValue, auth.timestamp, auth.window] })
  else
    (st', .ok subscribe_data)

/-- `unsubscribe(self, streams)`: sends the UNSUBSCRIBE message, then runs
the removal loop over `self.callbacks`. -/
def unsubscribe (st : ClientState) (streams : List String) :
    ClientState × OutMsg :=
  ({ st with callbacks := delStreams st.callbacks streams },
   { method := "UNSUBSCRIBE", params := streams, sigField := none })

/-- The body of the for-loop in `on_message`:
`for callback in self.callbacks[stream]: callback(data["data"])`.
Each iteration first evaluates `data["data"]` (`KeyError` when the field
is absent), then invokes the callback, which may itself raise.  Returns
the invocations performed, in order, as (handler, payload) pairs, and
the exception that stopped the loop, if any. -/
def runCallbacks (raises : Nat → Json → Bool) (dataField : Option Json) :
    List Nat → List (Nat × Json) × Option PyError
  | [] => ([], none)
  | h :: rest =>
    match dataField with
    | none => ([], some (.keyError "data"))
    | some d =>
      if raises h d then ([(h, d)], some (.handlerError h))
      else
        let r := runCallbacks raises dataField rest
        ((h, d) :: r.1, r.2)

/-- The try-block of `on_message`.  `decoded` is the result of
`json.loads(message)` (`none` when it raises).  Then
`stream = data.get("stream")` (`AttributeError` when `data` is not a
dict), the guard `if stream and stream in self.callbacks` (membership of
an unhashable value raises `TypeError`; Python evaluates `stream` for
truthiness first, short-circuiting), and the dispatch loop.  Returns the
handler invocations performed and the raised exception, if any. -/
def on_message_body (cbs : Registry) (raises : Nat → Json → Bool)
    (decoded : Option Json) : List (Nat × Json) × Option PyError :=
  match decoded with
  | none => ([], some .jsonDecodeError)
  | some (.obj fields) =>
    match alistGet fields "stream" with
    | none => ([], none)
    | some sv =>
      if pyTruthy sv then
        match sv with
        | .str s =>
          match alistGet cbs s with
          | none => ([], none)
          | some hs => runCallbacks raises (alistGet fields "data") hs
        | .arr _ => ([], some .typeError)
        | .obj _ => ([], some .typeError)
        | _ => ([], none)
      else ([], none)
  | some _ => ([], some .attributeError)

/-- The full `on_message` callback: the try body wrapped in
`except Exception as e: print(...)`, which swallows every exception, so
only the performed invocations are observable and nothing propagates to
the transport thread. -/
def on_message (cbs : Registry) (raises : Nat → Json → Bool)
    (decoded : Option Json) : List (Nat × Json) :=
  (on_message_body cbs raises decoded).1

/-- Observable effects of the connection-lifecycle code: how many times
`_connect` has run (sessions created), the `time.sleep` delays taken, in
order, and every message the lifecycle handlers themselves sent. -/
structure MgrState where
  sessions : Nat
  slept : List Nat
  lifecycleSent : List OutMsg
  callbacks : Registry
deriving Repr, DecidableEq

/-- Messages sent while establishing a session: the body of `_connect`
only constructs a `WebSocketApp` and starts `run_forever` on a daemon
thread, and `on_open` only prints, so nothing is sent — in particular no
SUBSCRIBE for the streams `callbacks` still lists. -/
def connect_sends (cbs : Registry) : List OutMsg := []

/-- Effect of one `_connect()` call: one more session; sends whatever the
connection establishment sends. -/
def connect_effect (st : MgrState) : MgrState :=
  { st with sessions := st.sessions + 1
            lifecycleSent := st.lifecycleSent ++ connect_sends st.callbacks }

/-- `on_close(ws, close_status_code, close_msg)`: print,
`time.sleep(5)`, `self._connect()` — unconditional, with no check of any
shutting-down flag (the class has none). -/
def on_close_effect (st : MgrState) : MgrState :=
  connect_effect { st with slept := st.slept ++ [5] }

/-- `on_error(ws, error)`: prints the error and nothing else. -/
def on_error_effect (st : MgrState) : MgrState :=
  st

/-- `close(self)`: `if self.ws: self.ws.close()` — asks the transport to
close (which will later fire the close event); mutates none of the
observable state and records no suppression of the reconnect. -/
def close_effect (st : MgrState) : MgrState :=
  st

/-- `n` successive close events, each handled by `on_close_effect`. -/
def iterCloseEvents (st : MgrState) : Nat → MgrState
  | 0 => st
  | n + 1 => iterCloseEvents (on_close_effect st) n

/-! ### Lemmas about the registry operations -/

theorem alistGet_append {α : Type} (l1 l2 : List (String × α)) (s : String) :
    alistGet (l1 ++ l2) s =
      (match alistGet l1 s with
       | some v => some v
       | none => alistGet l2 s) := by
  induction l1 with
  | nil => simp [alistGet]
  | cons p rest ih =>
    by_cases h : p.1 = s
    · simp [alistGet, h]
    · simp [alistGet, h, ih]

theorem appendHandler_get_same (cbs : Registry) (t : String) (cb : Nat) :
    alistGet (appendHandler cbs t cb) t
      = (alistGet cbs t).map (fun hs => hs ++ [cb]) := by
  induction cbs with
  | nil => simp [alistGet, appendHandler]
  | cons p rest ih =>
    by_cases h : p.1 = t
    · simp [alistGet, appendHandler, h]
    · simp [alistGet, appendHandler, h, ih]

theorem appendHandler_get_other (cbs : Registry) (t s : String) (cb : Nat)
    (hne : s ≠ t) :
    alistGet (appendHandler cbs t cb) s = alistGet cbs s := by
  have hts : t ≠ s := fun he => hne he.symm
  induction cbs with
  | nil => simp [appendHandler]
  | cons p rest ih =>
    by_cases h : p.1 = t
    · simp [alistGet, appendHandler, h, hts]
    · by_cases h3 : p.1 = s
      · simp [alistGet, appendHandler, h, h3, hne]
      · simp [alistGet, appendHandler, h, h3, ih]

theorem registerStream_get (cbs : Registry) (t s : String) (cb : Nat) :
    alistGet (registerStream cbs t cb) s
      = if s = t then some ((alistGet cbs t).getD [] ++ [cb])
        else alistGet cbs s := by
  unfold registerStream
  by_cases hst : s = t
  · subst hst
    cases hget : alistGet cbs s with
    | none =>
      simp only [hget, if_pos rfl]
      rw [appendHandler_get_same, alistGet_append, hget]
      simp [alistGet]
    | some hs =>
      simp only [hget, if_pos rfl]
      rw [appendHandler_get_same, hget]
      simp
  · have hts : t ≠ s := fun he => hst he.symm
    cases hget : alistGet cbs t with
    | none =>
      simp only [hget, if_neg hst]
      rw [appendHandler_get_other _ _ _ _ hst, alistGet_append]
      cases h2 : alistGet cbs s with
      | none => simp [alistGet, hts]
      | some v => simp
    | some hs =>
      simp only [hget, if_neg hst]
      exact appendHandler_get_other _ _ _ _ hst

theorem registerStreams_get_not_mem (streams : List String) (cbs : Registry)
    (s : String) (cb : Nat) (hs : s ∉ streams) :
    alistGet (registerStreams cbs streams cb) s = alistGet cbs s := by
  induction streams generalizing cbs with
  | nil => rfl
  | cons t rest ih =>
    have hne : s ≠ t := fun h => hs (h ▸ List.mem_cons_self t rest)
    have hrest : s ∉ rest := fun h => hs (List.mem_cons_of_mem t h)
    show alistGet (registerStreams (registerStream cbs t cb) rest cb) s = _
    rw [ih _ hrest, registerStream_get, if_neg hne]

theorem registerStreams_get_mem (streams : List String) (cbs : Registry)
    (s : String) (cb : Nat) (hnd : streams.Nodup) (hs : s ∈ streams) :
    alistGet (registerStreams cbs streams cb) s
      = some ((alistGet cbs s).getD [] ++ [cb]) := by
  induction streams generalizing cbs with
  | nil => cases hs
  | cons t rest ih =>
    rcases List.nodup_cons.mp hnd with ⟨htr, hndr⟩
    show alistGet (registerStreams (registerStream cbs t cb) rest cb) s = _
    rcases List.mem_cons.mp hs with heq | hmem
    · subst heq
      rw [registerStreams_get_not_mem rest _ s cb htr,
          registerStream_get, if_pos rfl]
    · have hne : s ≠ t := fun h => htr (h ▸ hmem)
      rw [ih _ hndr hmem, registerStream_get, if_neg hne]

theorem eraseKey_get (cbs : Registry) (t s : String) :
    alistGet (eraseKey cbs t) s
      = if s = t then none else alistGet cbs s := by
  induction cbs with
  | nil => simp [alistGet, eraseKey]
  | cons p rest ih =>
    by_cases hpt : p.1 = t
    · by_cases hst : s = t
      · subst hst
        simp [eraseKey, alistGet, hpt, ih]
      · have hts : ¬ t = s := fun he => hst he.symm
        simp [eraseKey, alistGet, hpt, hst, hts, ih]
    · by_cases hps : p.1 = s
      · have hst : ¬ s = t := fun h => hpt (hps.trans h)
        simp [eraseKey, alistGet, hpt, hps, hst]
      · simp [eraseKey, alistGet, hpt, hps, ih]

theorem delStream_get (cbs : Registry) (t s : String) :
    alistGet (delStream cbs t) s
      = if s = t then none else alistGet cbs s := by
  unfold delStream
  cases hget : alistGet cbs t with
  | none =>
    by_cases hst : s = t
    · subst hst; simp [hget]
    · simp [hst]
  | some hs => rw [eraseKey_get]

theorem delStreams_get_not_mem (streams : List String) (cbs : Registry)
    (s : String) (hs : s ∉ streams) :
    alistGet (delStreams cbs streams) s = alistGet cbs s := by
  induction streams generalizing cbs with
  | nil => rfl
  | cons t rest ih =>
    have hne : s ≠ t := fun h => hs (h ▸ List.mem_cons_self t rest)
    have hrest : s ∉ rest := fun h => hs (List.mem_cons_of_mem t h)
    show alistGet (delStreams (delStream cbs t) rest) s = _
    rw [ih _ hrest, delStream_get, if_neg hne]

theorem delStreams_get_mem (streams : List String) (cbs : Registry)
    (s : String) (hs : s ∈ streams) :
    alistGet (delStreams cbs streams) s = none := by
  induction streams generalizing cbs with
  | nil => cases hs
  | cons t rest ih =>
    show alistGet (delStreams (delStream cbs t) rest) s = none
    rcases List.mem_cons.mp hs with heq | hmem
    · subst heq
      by_cases hsr : s ∈ rest
      · exact ih _ hsr
      · rw [delStreams_get_not_mem rest _ s hsr, delStream_get, if_pos rfl]
    · exact ih _ hmem

theorem delStreams_noop (streams : List String) (cbs : Registry)
    (habs : ∀ s ∈ streams, alistGet cbs s = none) :
    delStreams cbs streams = cbs := by
  induction streams with
  | nil => rfl
  | cons t rest ih =>
    show delStreams (delStream cbs t) rest = cbs
    have ht : alistGet cbs t = none := habs t (List.mem_cons_self t rest)
    have hdel : delStream cbs t = cbs := by unfold delStream; rw [ht]
    rw [hdel]
    exact ih (fun s hsr => habs s (List.mem_cons_of_mem t hsr))

/-! ### Lemmas about the dispatch loop -/

theorem runCallbacks_no_raise (raises : Nat → Json → Bool) (d : Json)
    (hs : List Nat) (hnr : ∀ h ∈ hs, raises h d = false) :
    runCallbacks raises (some d) hs = (hs.map (fun h => (h, d)), none) := by
  induction hs with
  | nil => rfl
  | cons h rest ih =>
    have hh : raises h d = false := hnr h (List.mem_cons_self h rest)
    have hrest : ∀ h2 ∈ rest, raises h2 d = false :=
      fun h2 hm => hnr h2 (List.mem_cons_of_mem h hm)
    simp [runCallbacks, hh, ih hrest]

theorem runCallbacks_raiser (raises : Nat → Json → Bool) (d : Json)
    (pre post : List Nat) (hr : Nat)
    (hpre : ∀ h ∈ pre, raises h d = false) (hhr : raises hr d = true) :
    runCallbacks raises (some d) (pre ++ hr :: post)
      = (pre.map (fun h => (h, d)) ++ [(hr, d)], some (.handlerError hr)) := by
  induction pre with
  | nil => simp [runCallbacks, hhr]
  | cons h rest ih =>
    have hh : raises h d = false := hpre h (List.mem_cons_self h rest)
    have hrest : ∀ h2 ∈ rest, raises h2 d = false :=
      fun h2 hm => hpre h2 (List.mem_cons_of_mem h hm)
    simp [runCallbacks, hh, ih hrest]

/-! ### Lemmas about subscribe and on_message -/

theorem generate_signature_missing_creds (ak sk : Option String)
    (sign : SignPrimitive) (streams : List String) (ts w : Nat)
    (h : optStrFalsy ak = true ∨ optStrFalsy sk = true) :
    generate_signature ak sk sign streams ts w = none := by
  unfold generate_signature
  rcases h with h | h <;> simp [h]

theorem subscribe_missing_creds_eq (st : ClientState) (sign : SignPrimitive)
    (streams : List String) (cb ts : Nat)
    (h : optStrFalsy st.api_key = true ∨ optStrFalsy st.secret_key = true) :
    subscribe st sign streams cb true ts
      = ({ st with callbacks := registerStreams st.callbacks streams cb },
         .error (.keyError "api-key")) := by
  simp [subscribe,
        generate_signature_missing_creds st.api_key st.secret_key sign streams ts 5000 h]

theorem subscribe_public_eq (st : ClientState) (sign : SignPrimitive)
    (streams : List String) (cb ts : Nat) :
    subscribe st sign streams cb false ts
      = ({ st with callbacks := registerStreams st.callbacks streams cb },
         .ok { method := "SUBSCRIBE", params := streams, sigField := none }) := rfl

theorem on_message_unregistered (cbs : Registry) (raises : Nat → Json → Bool)
    (s : String) (d : Json) (h : alistGet cbs s = none) :
    on_message cbs raises (some (.obj [("stream", .str s), ("data", d)])) = [] := by
  cases hE : s.isEmpty with
  | true => simp [on_message, on_message_body, alistGet, pyTruthy, hE]
  | false => simp [on_message, on_message_body, alistGet, pyTruthy, hE, h]

/-! ### The claims -/

/-- C1: the claim says that after a reconnect the client resends a
SUBSCRIBE for every stream the registry still lists.  The code does the
opposite: `on_close` only sleeps and calls `_connect`, and neither
`_connect` nor `on_open` sends anything, so handling a close event
creates a new session while the outbound lifecycle traffic stays exactly
as it was — no stream is ever resubscribed. -/
theorem reconnect_resubscribes_nothing (st : MgrState) :
    (on_close_effect st).sessions = st.sessions + 1
    ∧ (on_close_effect st).lifecycleSent = st.lifecycleSent := by
  constructor <;> simp [on_close_effect, connect_effect, connect_sends]

/-- C2: a private subscribe on a client whose api_key or secret_key is
not configured raises `KeyError` at `auth_data["api-key"]` before
`self.ws.send` is reached, so the failure is synchronous and no
SUBSCRIBE message — in particular none with empty signature strings —
is ever sent. -/
theorem private_subscribe_missing_creds_never_sends
    (st : ClientState) (sign : SignPrimitive) (streams : List String)
    (cb ts : Nat)
    (h : optStrFalsy st.api_key = true ∨ optStrFalsy st.secret_key = true) :
    (subscribe st sign streams cb true ts).2
      = Except.error (.keyError "api-key") := by
  rw [subscribe_missing_creds_eq st sign streams cb ts h]

/-- Witness for C2 at a client built with the constructor defaults
(api_key = secret_key = None). -/
theorem private_subscribe_missing_creds_never_sends_witness :
    (subscribe ⟨none, none, []⟩ (fun m => m) ["account.orderUpdate"] 0 true 1700000000000).2
      = Except.error (.keyError "api-key") :=
  private_subscribe_missing_creds_never_sends ⟨none, none, []⟩ (fun m => m)
    ["account.orderUpdate"] 0 1700000000000 (Or.inl rfl)

/-- C3 counterexample: the claim quantifies over every stream name, but
for the empty stream name the dispatch guard `if stream and stream in
self.callbacks` finds `""` falsy: after both subscribes the inbound
frame for `""` invokes neither handler, not h1 then h2. -/
theorem empty_stream_name_no_dispatch :
    on_message
      ((subscribe ((subscribe ⟨none, none, []⟩ (fun m => m) [""] 0 false 0).1)
          (fun m => m) [""] 1 false 0).1).callbacks
      (fun _ _ => false)
      (some (.obj [("stream", .str ""), ("data", .num 7)])) = [] := rfl

/-- C3 (amended to nonempty stream names): after subscribe(["A"], h1)
then subscribe(["A"], h2) on a fresh client, one inbound frame
{"stream":"A","data":d} invokes h1 with d and then h2 with d, each
exactly once, provided A is nonempty. -/
theorem two_subscribes_dispatch_in_order
    (A : String) (h1 h2 : Nat) (d : Json) (sign : SignPrimitive)
    (ak sk : Option String) (t1 t2 : Nat)
    (hA : A.isEmpty = false) :
    on_message
      ((subscribe ((subscribe ⟨ak, sk, []⟩ sign [A] h1 false t1).1)
          sign [A] h2 false t2).1).callbacks
      (fun _ _ => false)
      (some (.obj [("stream", .str A), ("data", d)]))
      = [(h1, d), (h2, d)] := by
  rw [subscribe_public_eq, subscribe_public_eq]
  simp [registerStreams, registerStream, alistGet, appendHandler,
        on_message, on_message_body, pyTruthy, hA, runCallbacks]

/-- Witness for C3's amended theorem at a concrete stream name. -/
theorem two_subscribes_dispatch_in_order_witness :
    on_message
      ((subscribe ((subscribe ⟨none, none, []⟩ (fun m => m) ["bookTicker.SOL_USDC"] 0 false 0).1)
          (fun m => m) ["bookTicker.SOL_USDC"] 1 false 0).1).callbacks
      (fun _ _ => false)
      (some (.obj [("stream", .str "bookTicker.SOL_USDC"), ("data", .num 7)]))
      = [(0, .num 7), (1, .num 7)] :=
  two_subscribes_dispatch_in_order "bookTicker.SOL_USDC" 0 1 (.num 7)
    (fun m => m) none none 0 0 rfl

/-- C4: unsubscribe sends exactly one UNSUBSCRIBE message carrying the
given stream list, removes every listed stream's whole registry entry,
leaves every other entry alone, makes any later frame for a listed
stream invoke no handler, and is a no-op (not an error) when none of the
listed streams has an entry. -/
theorem unsubscribe_removes_all_entries
    (st : ClientState) (streams : List String) :
    (unsubscribe st streams).2
      = { method := "UNSUBSCRIBE", params := streams, sigField := none }
    ∧ (∀ s ∈ streams, alistGet (unsubscribe st streams).1.callbacks s = none)
    ∧ (∀ s, s ∉ streams →
        alistGet (unsubscribe st streams).1.callbacks s = alistGet st.callbacks s)
    ∧ (∀ raises s d, s ∈ streams →
        on_message (unsubscribe st streams).1.callbacks raises
          (some (.obj [("stream", .str s), ("data", d)])) = [])
    ∧ ((∀ s ∈ streams, alistGet st.callbacks s = none) →
        (unsubscribe st streams).1.callbacks = st.callbacks) := by
  refine ⟨rfl, ?_, ?_, ?_, ?_⟩
  · intro s hs
    exact delStreams_get_mem streams st.callbacks s hs
  · intro s hs
    exact delStreams_get_not_mem streams st.callbacks s hs
  · intro raises s d hs
    exact on_message_unregistered _ raises s d
      (delStreams_get_mem streams st.callbacks s hs)
  · intro habs
    exact delStreams_noop streams st.callbacks habs

/-- Witness for C4: unsubscribing ["A"] on a registry holding A (with
two handlers) and B removes A entirely, keeps B, drops later frames for
A, and unsubscribing the unknown "C" changes nothing. -/
theorem unsubscribe_removes_all_entries_witness :
    (unsubscribe ⟨none, none, [("A", [0, 1]), ("B", [2])]⟩ ["A"]).2
      = { method := "UNSUBSCRIBE", params := ["A"], sigField := none }
    ∧ alistGet (unsubscribe ⟨none, none, [("A", [0, 1]), ("B", [2])]⟩ ["A"]).1.callbacks "A" = none
    ∧ alistGet (unsubscribe ⟨none, none, [("A", [0, 1]), ("B", [2])]⟩ ["A"]).1.callbacks "B"
        = alistGet [("A", [0, 1]), ("B", [2])] "B"
    ∧ on_message (unsubscribe ⟨none, none, [("A", [0, 1]), ("B", [2])]⟩ ["A"]).1.callbacks
        (fun _ _ => false) (some (.obj [("stream", .str "A"), ("data", .num 7)])) = []
    ∧ (unsubscribe ⟨none, none, [("A", [0, 1]), ("B", [2])]⟩ ["C"]).1.callbacks
        = [("A", [0, 1]), ("B", [2])] := by
  refine ⟨(unsubscribe_removes_all_entries ⟨none, none, [("A", [0, 1]), ("B", [2])]⟩ ["A"]).1,
          (unsubscribe_removes_all_entries ⟨none, none, [("A", [0, 1]), ("B", [2])]⟩ ["A"]).2.1
            "A" (by decide),
          (unsubscribe_removes_all_entries ⟨none, none, [("A", [0, 1]), ("B", [2])]⟩ ["A"]).2.2.1
            "B" (by decide),
          (unsubscribe_removes_all_entries ⟨none, none, [("A", [0, 1]), ("B", [2])]⟩ ["A"]).2.2.2.1
            (fun _ _ => false) "A" (.num 7) (by decide),
          (unsubscribe_removes_all_entries ⟨none, none, [("A", [0, 1]), ("B", [2])]⟩ ["C"]).2.2.2.2
            ?_⟩
  intro s hs
  simp only [List.mem_singleton] at hs
  subst hs
  rfl

/-- C5: a frame that is undecodable, or decodes without a "stream"
field, or whose stream value is no registered stream name, invokes no
handler, and the exception (when one was raised inside the try block) is
swallowed by the except clause, never crashing the callback. -/
theorem malformed_frames_invoke_no_handler
    (cbs : Registry) (raises : Nat → Json → Bool) :
    on_message cbs raises none = []
    ∧ (∀ fields, alistGet fields "stream" = none →
        on_message cbs raises (some (.obj fields)) = [])
    ∧ (∀ fields sv, alistGet fields "stream" = some sv →
        (∀ s, sv = Json.str s → alistGet cbs s = none) →
        on_message cbs raises (some (.obj fields)) = []) := by
  refine ⟨rfl, ?_, ?_⟩
  · intro fields h
    simp [on_message, on_message_body, h]
  · intro fields sv h hstr
    cases sv with
    | str s =>
      cases hE : s.isEmpty with
      | true => simp [on_message, on_message_body, h, pyTruthy, hE]
      | false => simp [on_message, on_message_body, h, pyTruthy, hE, hstr s rfl]
    | null => simp [on_message, on_message_body, h, pyTruthy]
    | bool b => cases b <;> simp [on_message, on_message_body, h, pyTruthy]
    | num n =>
      by_cases hn : n = 0 <;> simp [on_message, on_message_body, h, pyTruthy, hn]
    | arr xs => cases xs <;> simp [on_message, on_message_body, h, pyTruthy]
    | obj fs => cases fs <;> simp [on_message, on_message_body, h, pyTruthy]

/-- Witness for C5: a registry with one stream, three malformed frames:
undecodable text, an object with no "stream" field, and a frame naming
an unregistered stream. -/
theorem malformed_frames_invoke_no_handler_witness :
    on_message [("A", [0])] (fun _ _ => false) none = []
    ∧ on_message [("A", [0])] (fun _ _ => false)
        (some (.obj [("e", .str "x")])) = []
    ∧ on_message [("A", [0])] (fun _ _ => false)
        (some (.obj [("stream", .str "B"), ("data", .num 1)])) = [] :=
  ⟨(malformed_frames_invoke_no_handler [("A", [0])] (fun _ _ => false)).1,
   (malformed_frames_invoke_no_handler [("A", [0])] (fun _ _ => false)).2.1
     [("e", .str "x")] rfl,
   (malformed_frames_invoke_no_handler [("A", [0])] (fun _ _ => false)).2.2
     [("stream", .str "B"), ("data", .num 1)] (.str "B") rfl
     (fun s hs => by cases hs; rfl)⟩

/-- C6: the claim says an explicit close() suppresses the reconnect that
the resulting close event would trigger.  The code has no such
suppression: close() only calls self.ws.close(), and on_close
unconditionally sleeps and reconnects, so a new session is created even
after an explicit close. -/
theorem close_then_close_event_still_reconnects (st : MgrState) :
    (on_close_effect (close_effect st)).sessions = st.sessions + 1 := by
  simp [close_effect, on_close_effect, connect_effect]

/-- C7: with credentials configured the signer returns the four-field
tuple over exactly the canonical string
"instruction=subscribe&timestamp=<ts>&window=<w>", its result is
independent of the stream names, and with api_key or secret_key not
configured it returns the empty result — independent even of the signing
primitive, hence without calling it — and never throws. -/
theorem signer_canonical_string_and_tuple
    (ak sk : Option String) (sign : SignPrimitive)
    (streams streams2 : List String) (ts w : Nat) :
    (∀ a k, ak = some a → sk = some k → a.isEmpty = false → k.isEmpty = false →
      generate_signature ak sk sign streams ts w
        = some { apiKey := a
                 sigValue := sign ("instruction=subscribe&timestamp="
                   ++ toString ts ++ "&window=" ++ toString w)
                 timestamp := toString ts
                 window := toString w })
    ∧ generate_signature ak sk sign streams ts w
        = generate_signature ak sk sign streams2 ts w
    ∧ ((optStrFalsy ak = true ∨ optStrFalsy sk = true) →
        ∀ sign2 : SignPrimitive,
          generate_signature ak sk sign streams ts w = none
          ∧ generate_signature ak sk sign streams ts w
              = generate_signature ak sk sign2 streams ts w) := by
  refine ⟨?_, rfl, ?_⟩
  · intro a k ha hk hae hke
    subst ha; subst hk
    simp [generate_signature, optStrFalsy, hae, hke]
  · intro h sign2
    rw [generate_signature_missing_creds ak sk sign streams ts w h,
        generate_signature_missing_creds ak sk sign2 streams ts w h]
    exact ⟨rfl, rfl⟩

/-- Witness for C7: a configured client yields the signed four-field
tuple over the canonical string; a client missing its api_key yields the
empty result. -/
theorem signer_canonical_string_and_tuple_witness :
    generate_signature (some "key1") (some "sec1") (fun m => m)
        ["account.orderUpdate"] 12 5000
      = some { apiKey := "key1"
               sigValue := "instruction=subscribe&timestamp=12&window=5000"
               timestamp := "12"
               window := "5000" }
    ∧ generate_signature none (some "sec1") (fun m => m)
        ["account.orderUpdate"] 12 5000 = none :=
  ⟨((signer_canonical_string_and_tuple (some "key1") (some "sec1") (fun m => m)
      ["account.orderUpdate"] [] 12 5000).1 "key1" "sec1" rfl rfl rfl rfl).trans rfl,
   ((signer_canonical_string_and_tuple none (some "sec1") (fun m => m)
      ["account.orderUpdate"] [] 12 5000).2.2 (Or.inl rfl) (fun m => m)).1⟩

/-- C8 counterexample: a transport-error event alone triggers no
reconnect and no delay — on_error only prints, leaving the state
untouched, so the claim's "connection close or transport error" is too
strong on the error side. -/
theorem error_event_alone_no_reconnect :
    on_error_effect
        { sessions := 1, slept := [], lifecycleSent := [],
          callbacks := [("trades.SOL_USDC", [0])] }
      = { sessions := 1, slept := [], lifecycleSent := [],
          callbacks := [("trades.SOL_USDC", [0])] } := rfl

/-- C8 (amended to close events): every close event — with no condition,
no backoff, no retry bound — costs exactly the fixed 5-second delay and
creates one more session, so `n` successive close events create `n`
sessions after `n` delays of 5: the reconnect loop never gives up. -/
theorem close_events_reconnect_forever (st : MgrState) (n : Nat) :
    (iterCloseEvents st n).sessions = st.sessions + n
    ∧ (iterCloseEvents st n).slept = st.slept ++ List.replicate n 5 := by
  induction n generalizing st with
  | zero => simp [iterCloseEvents]
  | succ m ih =>
    have h := ih (on_close_effect st)
    refine ⟨?_, ?_⟩
    · show (iterCloseEvents (on_close_effect st) m).sessions = st.sessions + (m + 1)
      rw [h.1]
      simp [on_close_effect, connect_effect]
      omega
    · show (iterCloseEvents (on_close_effect st) m).slept
        = st.slept ++ List.replicate (m + 1) 5
      rw [h.2]
      simp [on_close_effect, connect_effect, List.replicate_succ]

/-- C9: a private subscribe that fails for missing credentials has
already mutated the registry: the error comes back, yet every listed
stream's entry now ends in the new handler — the call is not atomic. -/
theorem failed_private_subscribe_mutates_registry
    (st : ClientState) (sign : SignPrimitive) (streams : List String)
    (cb ts : Nat)
    (hcreds : optStrFalsy st.api_key = true ∨ optStrFalsy st.secret_key = true)
    (hnd : streams.Nodup) :
    (subscribe st sign streams cb true ts).2
      = Except.error (.keyError "api-key")
    ∧ ∀ s ∈ streams,
        alistGet (subscribe st sign streams cb true ts).1.callbacks s
          = some ((alistGet st.callbacks s).getD [] ++ [cb]) := by
  rw [subscribe_missing_creds_eq st sign streams cb ts hcreds]
  exact ⟨rfl, fun s hs => registerStreams_get_mem streams st.callbacks s cb hnd hs⟩

/-- Witness for C9: on a credential-less client already holding one
handler for "A", the failed private subscribe of ["A", "B"] appends
handler 5 to "A" and creates ["B" ↦ [5]]. -/
theorem failed_private_subscribe_mutates_registry_witness :
    (subscribe ⟨none, none, [("A", [0])]⟩ (fun m => m) ["A", "B"] 5 true 3).2
      = Except.error (.keyError "api-key")
    ∧ alistGet (subscribe ⟨none, none, [("A", [0])]⟩ (fun m => m) ["A", "B"] 5 true 3).1.callbacks "A"
        = some [0, 5]
    ∧ alistGet (subscribe ⟨none, none, [("A", [0])]⟩ (fun m => m) ["A", "B"] 5 true 3).1.callbacks "B"
        = some [5] := by
  have h := failed_private_subscribe_mutates_registry ⟨none, none, [("A", [0])]⟩
    (fun m => m) ["A", "B"] 5 3 (Or.inl rfl) (by decide)
  exact ⟨h.1, (h.2 "A" (by decide)).trans rfl, (h.2 "B" (by decide)).trans rfl⟩

/-- C10: when the handlers for a stream are pre ++ [hr] ++ post, all of
pre returning normally and hr raising on the frame's payload, the
dispatch invokes pre and hr each once, skips all of post, and the raised
exception stays inside on_message (the body records it; the full
callback swallows it and returns). -/
theorem raising_handler_skips_later_handlers
    (cbs : Registry) (raises : Nat → Json → Bool) (s : String)
    (pre post : List Nat) (hr : Nat) (d : Json)
    (hreg : alistGet cbs s = some (pre ++ hr :: post))
    (hS : s.isEmpty = false)
    (hpre : ∀ h ∈ pre, raises h d = false) (hhr : raises hr d = true) :
    on_message cbs raises (some (.obj [("stream", .str s), ("data", d)]))
      = pre.map (fun h => (h, d)) ++ [(hr, d)]
    ∧ (on_message_body cbs raises
        (some (.obj [("stream", .str s), ("data", d)]))).2
      = some (.handlerError hr) := by
  have hbody : on_message_body cbs raises
      (some (.obj [("stream", .str s), ("data", d)]))
      = (pre.map (fun h => (h, d)) ++ [(hr, d)], some (.handlerError hr)) := by
    simp [on_message_body, alistGet, pyTruthy, hS, hreg,
          runCallbacks_raiser raises d pre post hr hpre hhr]
  exact ⟨by simp [on_message, hbody], by simp [hbody]⟩

/-- Witness for C10: handlers [0, 1, 2] for "A", handler 1 raising on
the payload: 0 and 1 are invoked, 2 is skipped, the exception is
recorded in the body and swallowed by on_message. -/
theorem raising_handler_skips_later_handlers_witness :
    on_message [("A", [0, 1, 2])] (fun h _ => h == 1)
      (some (.obj [("stream", .str "A"), ("data", .num 7)]))
      = [(0, .num 7), (1, .num 7)]
    ∧ (on_message_body [("A", [0, 1, 2])] (fun h _ => h == 1)
        (some (.obj [("stream", .str "A"), ("data", .num 7)]))).2
      = some (.handlerError 1) := by
  have h := raising_handler_skips_later_handlers [("A", [0, 1, 2])]
    (fun h _ => h == 1) "A" [0] [2] 1 (.num 7) rfl rfl
    (by decide) rfl
  exact ⟨h.1.trans rfl, h.2⟩

end BackpackWS
